import Mathlib

/-!
Shallow embedding of the PyPortal Psychedelic Screensaver sources
(`pyportal_8effects_stable.py` and the framework under
`Adafruit_CircuitPython_PyPortal-main/examples/`), together with proofs
about the effect generators, palettes, fire simulation, fractal escape
iteration and the two schedulers.

Conventions of the embedding:
* Python floats are modelled as real numbers (`ℝ`) where trigonometric
  functions appear, and as rationals (`ℚ`) where all arithmetic is
  rational, so those parts stay executable.
* Python `int(x)` (truncation toward zero) is `pyInt` / `pyIntQ`.
* Python `%` on floats with a positive modulus is `fmod`; on integers it
  coincides with `Int.emod`.
* Calls to the ambient `random` module are modelled as draws from an
  injected random-number stream `ℕ → ℕ`; `random.randint(lo, hi)` applied
  to a stream value is `randint lo hi r`, which always lands in
  `[lo, hi]`, and `random.choice(xs)` is `pyChoice xs r`.
-/

namespace PyPortal

/-- Python int() conversion of a float: truncation toward zero. -/
noncomputable def pyInt (r : ℝ) : ℤ := if 0 ≤ r then ⌊r⌋ else ⌈r⌉

/-- Python int() conversion for rational-valued floats. -/
def pyIntQ (q : ℚ) : ℤ := if 0 ≤ q then ⌊q⌋ else ⌈q⌉

/-- Python float modulo with a positive modulus: result in [0, b). -/
noncomputable def fmod (a b : ℝ) : ℝ := a - b * ⌊a / b⌋

/-- Injected-random-stream model of random.randint(lo, hi): lands in [lo, hi]. -/
def randint (lo hi : ℤ) (r : ℕ) : ℤ := lo + (r : ℤ) % (hi - lo + 1)

/-- Injected-random-stream model of random.choice(xs). -/
def pyChoice {α : Type} [Inhabited α] (xs : List α) (r : ℕ) : α :=
  xs.getD (r % xs.length) default

/-- Clamp used throughout the sources: max(0, min(255, v)). -/
def clamp255 (v : ℤ) : ℤ := max 0 (min 255 v)

/-- Validity of one RGB palette entry: every channel in [0, 255]. -/
def rgbOk (c : ℤ × ℤ × ℤ) : Prop :=
  0 ≤ c.1 ∧ c.1 ≤ 255 ∧ 0 ≤ c.2.1 ∧ c.2.1 ≤ 255 ∧ 0 ≤ c.2.2 ∧ c.2.2 ≤ 255

/-! ## Palettes (the per-effect `_init_*palette` constructors) -/

/-- PlasmaEffect._init_palette: 64-color rainbow, angle = (i/63)·2π, no clamp. -/
noncomputable def plasmaPaletteEntry (i : ℕ) : ℤ × ℤ × ℤ :=
  let angle : ℝ := ((i : ℝ) / 63.0) * 2 * Real.pi
  (pyInt (127 + 127 * Real.sin angle),
   pyInt (127 + 127 * Real.sin (angle + 2.094)),
   pyInt (127 + 127 * Real.sin (angle + 4.188)))

/-- SpiralEffect._init_palette: 32-color blue-purple-pink ramp, clamped. -/
noncomputable def spiralPaletteEntry (i : ℕ) : ℤ × ℤ × ℤ :=
  let t : ℝ := (i : ℝ) / 31.0
  (clamp255 (pyInt (50 + 205 * t * t)),
   clamp255 (pyInt (20 + 100 * Real.sin (t * Real.pi))),
   clamp255 (pyInt (255 - 100 * t)))

/-- MatrixEffect._init_palette: 16 shades of Matrix green, no clamp. -/
def matrixPaletteEntry (i : ℕ) : ℤ × ℤ × ℤ :=
  let intensity : ℚ := (i : ℚ) / 15
  (0, pyIntQ (intensity * 255), pyIntQ (intensity * 50))

/-- JuliaFractalEffect._init_palette: index 0 black, else banded sinusoid, clamped. -/
noncomputable def juliaPaletteEntry (i : ℕ) : ℤ × ℤ × ℤ :=
  if i = 0 then (0, 0, 0)
  else
    let t : ℝ := (i : ℝ) / 63.0
    let r0 := pyInt (127 + 127 * Real.sin (t * Real.pi * 6))
    let g0 := pyInt (127 + 127 * Real.sin (t * Real.pi * 4 + 2))
    let b0 := pyInt (127 + 127 * Real.sin (t * Real.pi * 8 + 4))
    let intensity : ℝ := 0.7 + 0.3 * Real.sin (t * Real.pi * 12)
    (clamp255 (pyInt ((r0 : ℝ) * intensity)),
     clamp255 (pyInt ((g0 : ℝ) * intensity)),
     clamp255 (pyInt ((b0 : ℝ) * intensity)))

/-- FireEffect._init_fire_palette: 32-entry heat ramp across 5 bands, clamped. -/
def firePaletteEntry (i : ℕ) : ℤ × ℤ × ℤ :=
  let intensity : ℚ := (i : ℚ) / 31
  if intensity < 0.3 then
    let t := intensity / 0.3
    (clamp255 (pyIntQ (t * 128)), clamp255 0, clamp255 0)
  else if intensity < 0.6 then
    let t := (intensity - 0.3) / 0.3
    (clamp255 (pyIntQ (128 + t * 127)), clamp255 0, clamp255 0)
  else if intensity < 0.8 then
    let t := (intensity - 0.6) / 0.2
    (clamp255 255, clamp255 (pyIntQ (t * 165)), clamp255 0)
  else if intensity < 0.95 then
    let t := (intensity - 0.8) / 0.15
    (clamp255 255, clamp255 (pyIntQ (165 + t * 90)), clamp255 (pyIntQ (t * 100)))
  else
    let t := (intensity - 0.95) / 0.05
    (clamp255 255, clamp255 255, clamp255 (pyIntQ (100 + t * 155)))

/-- StarfieldEffect._init_star_palette: 16 star colors, index 0 pure black. -/
def starPaletteEntry (i : ℕ) : ℤ × ℤ × ℤ :=
  let intensity : ℚ := (i : ℚ) / 15
  if i = 0 then (0, 0, 0)
  else if intensity < 0.3 then
    (pyIntQ (intensity * 100), pyIntQ (intensity * 100), pyIntQ (intensity * 255))
  else if intensity < 0.7 then
    let v := pyIntQ (intensity * 255)
    (v, v, v)
  else (255, 255, 255)

/-- SineWaveEffect._init_wave_palette: 64-entry multi-band gradient, clamped. -/
def sinePaletteEntry (i : ℕ) : ℤ × ℤ × ℤ :=
  let t : ℚ := (i : ℚ) / 63
  if t < 0.2 then
    (clamp255 0, clamp255 (pyIntQ (t * 5 * 255)), clamp255 255)
  else if t < 0.4 then
    let s := (t - 0.2) / 0.2
    (clamp255 0, clamp255 255, clamp255 (pyIntQ (255 * (1 - s))))
  else if t < 0.6 then
    let s := (t - 0.4) / 0.2
    (clamp255 (pyIntQ (s * 255)), clamp255 255, clamp255 0)
  else if t < 0.8 then
    let s := (t - 0.6) / 0.2
    (clamp255 255, clamp255 (pyIntQ (255 * (1 - s * 0.5))), clamp255 0)
  else
    let s := (t - 0.8) / 0.2
    (clamp255 255, clamp255 (pyIntQ (128 + s * 127)), clamp255 (pyIntQ (s * 255)))

/-- StreamersEffect._init_streamer_palette: index 0 black, else boosted rainbow, clamped. -/
noncomputable def streamersPaletteEntry (i : ℕ) : ℤ × ℤ × ℤ :=
  if i = 0 then (0, 0, 0)
  else
    let t : ℝ := ((i : ℝ) - 1) / 30.0
    let angle : ℝ := t * 2 * 3.14159
    let r0 := pyInt (127 + 127 * Real.sin angle)
    let g0 := pyInt (127 + 127 * Real.sin (angle + 2.094))
    let b0 := pyInt (127 + 127 * Real.sin (angle + 4.188))
    let maxVal := max r0 (max g0 b0)
    let r1 := if 0 < maxVal then pyInt ((r0 : ℝ) * (255 / (maxVal : ℝ)) * 0.9) else r0
    let g1 := if 0 < maxVal then pyInt ((g0 : ℝ) * (255 / (maxVal : ℝ)) * 0.9) else g0
    let b1 := if 0 < maxVal then pyInt ((b0 : ℝ) * (255 / (maxVal : ℝ)) * 0.9) else b0
    (clamp255 r1, clamp255 g1, clamp255 b1)

/-- Kaleidoscope._init_kaleidoscope_palette: 256 colors, harmonics, boost, clamped. -/
noncomputable def kaleidoscopePaletteEntry (i : ℕ) : ℤ × ℤ × ℤ :=
  let angle : ℝ := ((i : ℝ) / 255.0) * 4 * Real.pi
  let r0 := pyInt (127 + 127 * Real.sin (angle * 1.3))
  let g0 := pyInt (127 + 127 * Real.sin (angle * 0.8 + Real.pi / 2))
  let b0 := pyInt (127 + 127 * Real.sin (angle * 1.7 + Real.pi))
  let maxVal := max r0 (max g0 b0)
  let r1 := if 0 < maxVal then pyInt ((r0 : ℝ) * (255 / (maxVal : ℝ)) * 0.8) else r0
  let g1 := if 0 < maxVal then pyInt ((g0 : ℝ) * (255 / (maxVal : ℝ)) * 0.8) else g0
  let b1 := if 0 < maxVal then pyInt ((b0 : ℝ) * (255 / (maxVal : ℝ)) * 0.8) else b0
  (clamp255 r1, clamp255 g1, clamp255 b1)

/-- Mandelbrot._init_mandelbrot_palette: index 0 black, else banded sinusoid, clamped. -/
noncomputable def mandelbrotPaletteEntry (i : ℕ) : ℤ × ℤ × ℤ :=
  if i = 0 then (0, 0, 0)
  else
    let t : ℝ := (i : ℝ) / 255.0
    let r0 := pyInt (127 + 127 * Real.sin (t * Real.pi * 4))
    let g0 := pyInt (127 + 127 * Real.sin (t * Real.pi * 4 + 2.094))
    let b0 := pyInt (127 + 127 * Real.sin (t * Real.pi * 4 + 4.188))
    (clamp255 (pyInt ((r0 : ℝ) * (0.8 + 0.4 * Real.sin (t * Real.pi * 8)))),
     clamp255 (pyInt ((g0 : ℝ) * (0.8 + 0.4 * Real.sin (t * Real.pi * 6)))),
     clamp255 (pyInt ((b0 : ℝ) * (0.8 + 0.4 * Real.sin (t * Real.pi * 10)))))

/-- PlasmaField._init_plasma_palette: 256-color rainbow, angle = (i/255)·2π, clamped. -/
noncomputable def plasmaFieldPaletteEntry (i : ℕ) : ℤ × ℤ × ℤ :=
  let angle : ℝ := ((i : ℝ) / 255.0) * 2 * Real.pi
  (clamp255 (pyInt (127 + 127 * Real.sin angle)),
   clamp255 (pyInt (127 + 127 * Real.sin (angle + 2.094))),
   clamp255 (pyInt (127 + 127 * Real.sin (angle + 4.188))))

/-! ## Generator palette-index computations (one bitmap write each) -/

/-- PlasmaEffect.update pixel value: two interfering sines. -/
noncomputable def plasmaVal (t : ℝ) (x y : ℕ) : ℝ :=
  Real.sin ((x : ℝ) * 0.2 + t) + Real.sin ((y : ℝ) * 0.15 + t * 0.8)

/-- PlasmaEffect.update palette index: int((val + 2.0) * 15.5) % 64. -/
noncomputable def plasmaColorIdx (t : ℝ) (x y : ℕ) : ℤ :=
  pyInt ((plasmaVal t x y + 2.0) * 15.5) % 64

/-- SpiralEffect.update pattern value at a pixel (center (80, 60)). -/
noncomputable def spiralCombined (t rot : ℝ) (x y : ℕ) : ℝ :=
  let dx : ℝ := (x : ℝ) - 80
  let dy : ℝ := (y : ℝ) - 60
  let distance := Real.sqrt (dx * dx + dy * dy)
  let angle := Complex.arg ⟨dx, dy⟩
  let spiralValue := Real.sin (distance * 0.3 - t * 3 + angle * 2 + rot)
  let radial := Real.cos (distance * 0.1 + t)
  (spiralValue + radial) / 2.0

/-- SpiralEffect.update palette index: int((combined + 1.0) * 15.5) % 32. -/
noncomputable def spiralColorIdx (t rot : ℝ) (x y : ℕ) : ℤ :=
  pyInt ((spiralCombined t rot x y + 1.0) * 15.5) % 32

/-- MatrixEffect.update trail brightness: 15 at the head, else max(0, 15 - 2·trail). -/
def matrixBrightness (trail : ℕ) : ℤ :=
  if trail = 0 then 15 else max 0 (15 - (trail : ℤ) * 2)

/-- Julia/Mandelbrot bitmap index for an escape count: 0 stays 0, else
  int((iterations + color_offset) % (N-1)) + 1 with N-1 = 63. -/
noncomputable def juliaColorIndex (iterations : ℕ) (off : ℝ) : ℤ :=
  if iterations = 0 then 0 else pyInt (fmod ((iterations : ℝ) + off) 63) + 1

/-- Mandelbrot bitmap index for an escape count, with N-1 = 255. -/
noncomputable def mandelColorIndex (iterations : ℕ) (off : ℝ) : ℤ :=
  if iterations = 0 then 0 else pyInt (fmod ((iterations : ℝ) + off) 255) + 1

/-- StarfieldEffect.update size factor: max(0.1, 30.0 / z). -/
noncomputable def starSizeFactor (z : ℝ) : ℝ := max 0.1 (30.0 / z)

/-- StarfieldEffect.update drawn brightness: max(1, min(15, int(b · sizeFactor))). -/
noncomputable def starBrightnessIdx (b : ℤ) (z : ℝ) : ℤ :=
  max 1 (min 15 (pyInt ((b : ℝ) * starSizeFactor z)))

/-- One wave source of SineWaveEffect. -/
structure WaveSource where
  x : ℝ
  y : ℝ
  freq : ℝ
  amplitude : ℝ
  phase : ℝ

/-- SineWaveEffect._calculate_wave_interference contribution of one source. -/
noncomputable def waveContribution (t : ℝ) (px py : ℕ) (s : WaveSource) : ℝ :=
  let dx := (px : ℝ) - s.x
  let dy := (py : ℝ) - s.y
  let distance := Real.sqrt (dx * dx + dy * dy)
  let waveValue := s.amplitude * Real.sin (s.freq * distance + s.phase + t * 2)
  waveValue * (1.0 / (1.0 + distance * 0.01))

/-- SineWaveEffect._calculate_wave_interference: sum over the wave sources. -/
noncomputable def waveInterference (t : ℝ) (px py : ℕ) (sources : List WaveSource) : ℝ :=
  sources.foldl (fun acc s => acc + waveContribution t px py s) 0

/-- SineWaveEffect.update palette index: normalized, shifted, mod 64, clamped to [0, 63]. -/
noncomputable def sineColorIdx (t shift : ℝ) (px py : ℕ) (sources : List WaveSource) : ℤ :=
  let colorValue := (waveInterference t px py sources + 2.0) / 4.0
  max 0 (min 63 (pyInt (fmod (colorValue * 63 + shift) 64)))

/-- StreamersEffect streamer color: random.randint(1, 31) from the stream. -/
def streamerColor (r : ℕ) : ℤ := randint 1 31 r

/-- Kaleidoscope._get_kaleidoscope_value at a pixel (center (160, 120), 6-fold symmetry). -/
noncomputable def kaleidoscopeValue (t : ℝ) (x y : ℕ) : ℝ :=
  let dx : ℝ := (x : ℝ) - 160
  let dy : ℝ := (y : ℝ) - 120
  let radius := Real.sqrt (dx * dx + dy * dy)
  let angle := Complex.arg ⟨dx, dy⟩ + t
  let segmentAngle := 2 * Real.pi / 6
  let angleInSeg0 := fmod angle segmentAngle
  let segmentNum := ⌊angle / segmentAngle⌋ % 12
  let angleInSeg := if segmentNum % 2 = 1 then segmentAngle - angleInSeg0 else angleInSeg0
  let mx := radius * Real.cos angleInSeg
  let my := radius * Real.sin angleInSeg
  let p1 := Real.sin (mx * 0.1 + t * 2)
  let p2 := Real.cos (my * 0.08 + t * 1.5)
  let p3 := Real.sin ((mx + my) * 0.06 + t)
  let p4 := Real.cos (radius * 0.05 + t * 0.8)
  let combined := (p1 + p2 + p3 + p4) / 4.0
  (combined + Real.sin (radius * 0.02 + t * 0.5)) / 2.0

/-- Kaleidoscope.update palette index: scaled, shifted, mod 256, clamped to [0, 255]. -/
noncomputable def kaleidoscopeColorIdx (t shift : ℝ) (x y : ℕ) : ℤ :=
  let colorBase := (kaleidoscopeValue t x y + 1.0) * 127.5
  max 0 (min 255 (pyInt (fmod (colorBase + shift) 256)))

/-- PlasmaField.update plasma value: four interfering sines (center (160, 120), scale 16). -/
noncomputable def plasmaFieldValue (t : ℝ) (x y : ℕ) : ℝ :=
  let v1 := Real.sin (((x : ℝ) + t * 50) / 16.0)
  let v2 := Real.sin (((y : ℝ) + t * 30) / 16.0)
  let v3 := Real.sin (((x : ℝ) + (y : ℝ) + t * 40) / 16.0)
  let v4 := Real.sin (Real.sqrt (((x : ℝ) - 160) ^ 2 + ((y : ℝ) - 120) ^ 2) / 16.0 + t * 20)
  (v1 + v2 + v3 + v4) / 4.0

/-- PlasmaField.update palette index: int((value + 1.0) * 127.5) clamped to [0, 255]. -/
noncomputable def plasmaFieldColorIdx (t : ℝ) (x y : ℕ) : ℤ :=
  max 0 (min 255 (pyInt ((plasmaFieldValue t x y + 1.0) * 127.5)))

/-! ## Escape-time fractal iteration (Julia and Mandelbrot share this loop) -/

/-- Squared magnitude tested against 4 in the escape loops. -/
def normSqQ (p : ℚ × ℚ) : ℚ := p.1 * p.1 + p.2 * p.2

/-- The loop body of JuliaFractalEffect._julia_iteration /
  Mandelbrot._mandelbrot_iteration: check before step, return the current
  index on escape, return 0 when the fuel (max_iterations) runs out. -/
def escAux (cr ci : ℚ) : ℚ → ℚ → ℕ → ℕ → ℕ
  | _, _, _, 0 => 0
  | zx, zy, i, fuel + 1 =>
    if 4 < zx * zx + zy * zy then i
    else escAux cr ci (zx * zx - zy * zy + cr) (2 * zx * zy + ci) (i + 1) fuel

/-- The orbit z_{k+1} = z_k^2 + c starting from a given z_0. -/
def escZ (cr ci zx zy : ℚ) : ℕ → ℚ × ℚ
  | 0 => (zx, zy)
  | n + 1 =>
    let p := escZ cr ci zx zy n
    (p.1 * p.1 - p.2 * p.2 + cr, 2 * p.1 * p.2 + ci)

/-- Mandelbrot._mandelbrot_iteration: z starts at 0, c is the pixel. -/
def mandelbrotIteration (cx cy : ℚ) (maxIterations : ℕ) : ℕ :=
  escAux cx cy 0 0 0 maxIterations

/-- JuliaFractalEffect._julia_iteration screen-to-plane x coordinate
  (bitmap width 160 = 320 // 2). -/
def juliaZx (zoom cx : ℚ) (x : ℕ) : ℚ := ((x : ℚ) / 160 - 0.5) * 4.0 / zoom + cx

/-- JuliaFractalEffect._julia_iteration screen-to-plane y coordinate
  (bitmap height 120 = 240 // 2). -/
def juliaZy (zoom cy : ℚ) (y : ℕ) : ℚ := ((y : ℚ) / 120 - 0.5) * 4.0 / zoom + cy

/-- JuliaFractalEffect._julia_iteration: z is the pixel, c is the parameter. -/
def juliaIteration (zoom cx cy cr ci : ℚ) (maxIterations x y : ℕ) : ℕ :=
  escAux cr ci (juliaZx zoom cx x) (juliaZy zoom cy y) 0 maxIterations

/-! ## Fire simulation (FireEffect) -/

/-- Fire grid width (self.fire_width). -/
def fireW : ℕ := 80

/-- Fire grid height (self.fire_height). -/
def fireH : ℕ := 60

/-- FireEffect._init_fire_source: set every bottom-row cell to 31. -/
def initFireSource (buf : ℕ → ℕ → ℤ) : ℕ → ℕ → ℤ :=
  fun y x => if y = fireH - 1 ∧ x < fireW then 31 else buf y x

/-- The fire buffer immediately after construction: all zeros, then the source row. -/
def fireInitBuffer : ℕ → ℕ → ℤ := initFireSource (fun _ _ => 0)

/-- Neighbor offsets (dx, dy) sampled in _update_fire_simulation, in loop order. -/
def fireOffsets : List (ℤ × ℤ) := [(-1, 0), (-1, 1), (0, 0), (0, 1), (1, 0), (1, 1)]

/-- Heat sum and in-bounds neighbor count for one cell. -/
def fireHeatStats (buf : ℕ → ℕ → ℤ) (x y : ℕ) : ℤ × ℕ :=
  fireOffsets.foldl
    (fun acc d =>
      let nx : ℤ := (x : ℤ) + d.1
      let ny : ℤ := (y : ℤ) + d.2
      if 0 ≤ nx ∧ nx < (fireW : ℤ) ∧ 0 ≤ ny ∧ ny < (fireH : ℤ) then
        (acc.1 + buf ny.toNat nx.toNat, acc.2 + 1)
      else acc)
    (0, 0)

/-- New heat of one interior cell: averaged neighbors, cooling, flicker, clamped. -/
def fireCellNew (rng : ℕ → ℕ) (k : ℕ) (buf : ℕ → ℕ → ℤ) (x y : ℕ) : ℤ :=
  let st := fireHeatStats buf x y
  if 0 < st.2 then
    let avgHeat : ℚ := (st.1 : ℚ) / (st.2 : ℚ)
    let cooling := randint 1 3 (rng k)
    let newHeat := max 0 (pyIntQ (avgHeat - (cooling : ℚ)))
    let newHeat2 :=
      if randint 0 10 (rng (k + 1)) < 3 then max 0 (newHeat - randint 0 2 (rng (k + 2)))
      else newHeat
    min 31 newHeat2
  else 0

/-- Write one cell of the in-place fire grid. -/
def gridWrite (buf : ℕ → ℕ → ℤ) (y x : ℕ) (v : ℤ) : ℕ → ℕ → ℤ :=
  fun y' x' => if y' = y ∧ x' = x then v else buf y' x'

/-- The interior cells in processing order: rows fire_height-2 down to 0, x ascending. -/
def fireCellSeq : List (ℕ × ℕ) :=
  ((List.range (fireH - 1)).reverse).flatMap fun y => (List.range fireW).map fun x => (y, x)

/-- The in-place bottom-up interior pass of _update_fire_simulation. -/
def fireInteriorPass (rng : ℕ → ℕ) (buf0 : ℕ → ℕ → ℤ) : ℕ → ℕ → ℤ :=
  fireCellSeq.enum.foldl
    (fun buf p => gridWrite buf p.2.1 p.2.2 (fireCellNew rng (3 * p.1) buf p.2.2 p.2.1))
    buf0

/-- Bottom-row refresh of _update_fire_simulation: max(20, min(31, 28 + randint(-3, 3))). -/
def fireSourceRow (rng : ℕ → ℕ) (base : ℕ) (buf : ℕ → ℕ → ℤ) : ℕ → ℕ → ℤ :=
  fun y x =>
    if y = fireH - 1 ∧ x < fireW then max 20 (min 31 (28 + randint (-3) 3 (rng (base + x))))
    else buf y x

/-- One full _update_fire_simulation pass. -/
def fireStep (rng : ℕ → ℕ) (buf : ℕ → ℕ → ℤ) : ℕ → ℕ → ℤ :=
  fireSourceRow rng (3 * fireCellSeq.length) (fireInteriorPass rng buf)

/-- The fire buffer after n update ticks (stream rng k feeds tick k). -/
def fireRun (rng : ℕ → ℕ → ℕ) : ℕ → ℕ → ℕ → ℤ
  | 0 => fireInitBuffer
  | n + 1 => fireStep (rng n) (fireRun rng n)

/-! ## Effect state and reset (for the reset-vs-construction claim) -/

/-- Matrix grid columns (self.columns). -/
def matrixColumns : ℕ := 20

/-- Matrix grid rows (self.rows). -/
def matrixRows : ℕ := 15

/-- Mutable state of MatrixEffect named by the spec: time plus the per-column
  drop arrays (indexed by column), together with the palette object built at
  construction. -/
structure MatrixState where
  time : ℚ
  dropPositions : ℕ → ℚ
  dropSpeeds : ℕ → ℤ
  dropActive : ℕ → Bool
  palette : ℕ → ℤ × ℤ × ℤ

/-- MatrixEffect.__init__: randomized drop state from the injected stream. -/
def matrixInitState (r : ℕ → ℕ) : MatrixState :=
  { time := 0
    dropPositions := fun i => ((randint (-10) (matrixRows : ℤ) (r (3 * i)) : ℤ) : ℚ)
    dropSpeeds := fun i => pyChoice [1, 2, 3] (r (3 * i + 1))
    dropActive := fun i => pyChoice [true, false] (r (3 * i + 2))
    palette := matrixPaletteEntry }

/-- MatrixEffect.reset: re-set the display group and zero the time counter only. -/
def matrixResetState (s : MatrixState) : MatrixState := { s with time := 0 }

/-- One column of MatrixEffect.update: move an active drop by speed·0.3, respawn it
  once past rows+5, or stochastically reactivate an idle column. -/
def matrixColUpdate (r : ℕ → ℕ) (col : ℕ) (pos : ℚ) (spd : ℤ) (act : Bool) :
    ℚ × ℤ × Bool :=
  if act then
    let pos1 := pos + (spd : ℚ) * 0.3
    if (matrixRows : ℚ) + 5 < pos1 then
      (((randint (-15) (-5) (r (4 * col)) : ℤ) : ℚ),
       pyChoice [1, 2, 3] (r (4 * col + 1)),
       pyChoice [true, true, true, false] (r (4 * col + 2)))
    else (pos1, spd, act)
  else if randint 0 100 (r (4 * col + 3)) < 5 then
    (((randint (-15) (-5) (r (4 * col)) : ℤ) : ℚ), spd, true)
  else (pos, spd, act)

/-- The state mutation of one MatrixEffect.update tick. -/
def matrixUpdateState (r : ℕ → ℕ) (s : MatrixState) : MatrixState :=
  { time := s.time + 0.1
    dropPositions := fun col =>
      (matrixColUpdate r col (s.dropPositions col) (s.dropSpeeds col) (s.dropActive col)).1
    dropSpeeds := fun col =>
      (matrixColUpdate r col (s.dropPositions col) (s.dropSpeeds col) (s.dropActive col)).2.1
    dropActive := fun col =>
      (matrixColUpdate r col (s.dropPositions col) (s.dropSpeeds col) (s.dropActive col)).2.2
    palette := s.palette }

/-- Mutable state of FireEffect: time, the persistent heat grid, the palette. -/
structure FireState where
  time : ℚ
  buffer : ℕ → ℕ → ℤ
  palette : ℕ → ℤ × ℤ × ℤ

/-- FireEffect.reset: zero the time and re-seed only the bottom source row. -/
def fireResetState (s : FireState) : FireState :=
  { time := 0, buffer := initFireSource s.buffer, palette := s.palette }

/-- Mutable state of PlasmaEffect: the time accumulator only. -/
structure PlasmaState where
  time : ℝ

/-- PlasmaEffect state as built by __init__. -/
noncomputable def plasmaInitState : PlasmaState := { time := 0 }

/-- PlasmaEffect.reset: zero the time accumulator. -/
noncomputable def plasmaResetState (_ : PlasmaState) : PlasmaState := { time := 0 }

/-- Mutable state of JuliaFractalEffect. -/
structure JuliaState where
  time : ℝ
  colorOffset : ℝ
  cReal : ℝ
  cImag : ℝ
  zoom : ℝ

/-- JuliaFractalEffect.reset: zero time and color offset only; the animated
  parameters c_real, c_imag and zoom keep their current values. -/
noncomputable def juliaResetState (s : JuliaState) : JuliaState :=
  { s with time := 0, colorOffset := 0 }

/-! ## Schedulers -/

/-- Number of effects in the pyportal_8effects_stable manager: Plasma, Spiral,
  Matrix, ColorMatrix, Julia, Fire, Starfield, SineWave, Streamers. -/
def numEffects : ℕ := 9

/-- ScreensaverManager scheduling state: active index and last transition time. -/
structure AutoState where
  idx : ℕ
  lastScroll : ℚ
deriving DecidableEq

/-- ScreensaverManager.handle_auto_scroll at one tick: advance (index+1 mod 9)
  and stamp the transition time once at least 10 seconds have elapsed. -/
def autoTick (now : ℚ) (s : AutoState) : AutoState :=
  if 10 ≤ now - s.lastScroll then { idx := (s.idx + 1) % numEffects, lastScroll := now }
  else s

/-- Folding handle_auto_scroll over a tick-time sequence. -/
def autoRun (ts : List ℚ) (s : AutoState) : AutoState :=
  ts.foldl (fun s t => autoTick t s) s

/-- Number of transitions the auto scheduler performs along a tick sequence. -/
def autoCount : List ℚ → ℚ → ℕ
  | [], _ => 0
  | t :: ts, last => if 10 ≤ t - last then autoCount ts t + 1 else autoCount ts last

/-- Number of effects in the framework screensaver: PlasmaField, Kaleidoscope,
  Mandelbrot. -/
def fwCount : ℕ := 3

/-- PyPortalScreensaver scheduling state: active index, last accepted touch time,
  last transition time. -/
structure TouchState where
  idx : ℕ
  lastTouch : ℚ
  lastAdvance : ℚ
deriving DecidableEq

/-- PyPortalScreensaver.advance_effect: next index mod 3, stamp the advance time. -/
def fwAdvanceEffect (now : ℚ) (s : TouchState) : TouchState :=
  { idx := (s.idx + 1) % fwCount, lastTouch := s.lastTouch, lastAdvance := now }

/-- PyPortalScreensaver.handle_touch: a level-sampled touch advances whenever the
  sample is true and strictly more than the 0.5 s debounce has elapsed. -/
def fwHandleTouch (now : ℚ) (touched : Bool) (s : TouchState) : TouchState :=
  if touched ∧ (0.5 : ℚ) < now - s.lastTouch then
    { fwAdvanceEffect now s with lastTouch := now }
  else s

/-! ## The spec's rainbow palette formula (for the refinement claim) -/

/-- Modelled from the spec: rainbow scheme entry with channel angle (i/N)·2π,
  phase shifts 2π/3 and 4π/3, channel round(127 + 127·sin(angle)), clamped. -/
noncomputable def rainbowSpecEntry (n i : ℕ) : ℤ × ℤ × ℤ :=
  let angle : ℝ := ((i : ℝ) / (n : ℝ)) * (2 * Real.pi)
  (clamp255 (round (127 + 127 * Real.sin angle)),
   clamp255 (round (127 + 127 * Real.sin (angle + 2 * Real.pi / 3))),
   clamp255 (round (127 + 127 * Real.sin (angle + 4 * Real.pi / 3))))

/-- The amended rainbow formula actually implemented: angle (i/(N-1))·2π, literal
  phase shifts 2.094 and 4.188, int() truncation, no clamp. -/
noncomputable def rainbowCodeEntry (n i : ℕ) : ℤ × ℤ × ℤ :=
  let angle : ℝ := ((i : ℝ) / ((n : ℝ) - 1)) * 2 * Real.pi
  (pyInt (127 + 127 * Real.sin angle),
   pyInt (127 + 127 * Real.sin (angle + 2.094)),
   pyInt (127 + 127 * Real.sin (angle + 4.188)))

/-- The amended rainbow formula with the final clamp of PlasmaField. -/
noncomputable def rainbowCodeEntryClamped (n i : ℕ) : ℤ × ℤ × ℤ :=
  let angle : ℝ := ((i : ℝ) / ((n : ℝ) - 1)) * 2 * Real.pi
  (clamp255 (pyInt (127 + 127 * Real.sin angle)),
   clamp255 (pyInt (127 + 127 * Real.sin (angle + 2.094))),
   clamp255 (pyInt (127 + 127 * Real.sin (angle + 4.188))))

/-! ## Basic lemmas about the Python-primitive models -/

lemma pyInt_of_nonneg {r : ℝ} (h : 0 ≤ r) : pyInt r = ⌊r⌋ := by
  simp [pyInt, h]

lemma pyInt_nonneg {r : ℝ} (h : 0 ≤ r) : 0 ≤ pyInt r := by
  rw [pyInt_of_nonneg h]
  exact Int.floor_nonneg.mpr h

lemma pyInt_le_of_le {r : ℝ} {n : ℤ} (h0 : 0 ≤ r) (h : r ≤ (n : ℝ)) : pyInt r ≤ n := by
  rw [pyInt_of_nonneg h0]
  exact (Int.floor_le_floor h).trans_eq (Int.floor_intCast n)

lemma pyInt_lt_of_lt {r : ℝ} {n : ℤ} (h0 : 0 ≤ r) (h : r < (n : ℝ)) : pyInt r < n := by
  rw [pyInt_of_nonneg h0]
  exact Int.floor_lt.mpr h

lemma fmod_nonneg (a : ℝ) {b : ℝ} (hb : 0 < b) : 0 ≤ fmod a b := by
  have h1 : b * (⌊a / b⌋ : ℝ) ≤ b * (a / b) :=
    mul_le_mul_of_nonneg_left (Int.floor_le _) hb.le
  have h2 : b * (a / b) = a := by field_simp
  simp only [fmod]
  nlinarith

lemma fmod_lt (a : ℝ) {b : ℝ} (hb : 0 < b) : fmod a b < b := by
  have h1 : a / b < (⌊a / b⌋ : ℝ) + 1 := Int.lt_floor_add_one _
  have h2 : a < b * ((⌊a / b⌋ : ℝ) + 1) := by
    have := mul_lt_mul_of_pos_left h1 hb
    calc a = b * (a / b) := by field_simp
    _ < b * ((⌊a / b⌋ : ℝ) + 1) := this
  simp only [fmod]
  nlinarith

lemma randint_mem {lo hi : ℤ} (h : lo ≤ hi) (r : ℕ) :
    lo ≤ randint lo hi r ∧ randint lo hi r ≤ hi := by
  have hpos : (0 : ℤ) < hi - lo + 1 := by omega
  have h1 : 0 ≤ (r : ℤ) % (hi - lo + 1) := Int.emod_nonneg _ (by omega)
  have h2 : (r : ℤ) % (hi - lo + 1) < hi - lo + 1 := Int.emod_lt_of_pos _ hpos
  constructor <;> simp only [randint] <;> omega

lemma clamp255_mem (v : ℤ) : 0 ≤ clamp255 v ∧ clamp255 v ≤ 255 := by
  refine ⟨le_max_left _ _, max_le (by norm_num) ?_⟩
  exact min_le_left _ _

lemma rgbOk_clamp (r g b : ℤ) : rgbOk (clamp255 r, clamp255 g, clamp255 b) :=
  ⟨(clamp255_mem r).1, (clamp255_mem r).2, (clamp255_mem g).1, (clamp255_mem g).2,
    (clamp255_mem b).1, (clamp255_mem b).2⟩

lemma sin_channel_mem (θ : ℝ) :
    0 ≤ pyInt (127 + 127 * Real.sin θ) ∧ pyInt (127 + 127 * Real.sin θ) ≤ 255 := by
  have hs1 : -1 ≤ Real.sin θ := Real.neg_one_le_sin θ
  have hs2 : Real.sin θ ≤ 1 := Real.sin_le_one θ
  have h0 : (0 : ℝ) ≤ 127 + 127 * Real.sin θ := by nlinarith
  constructor
  · exact pyInt_nonneg h0
  · exact pyInt_le_of_le h0 (by push_cast; nlinarith)

/-! ## Fire-simulation invariants -/

lemma fireCellNew_mem (rng : ℕ → ℕ) (k : ℕ) (buf : ℕ → ℕ → ℤ) (x y : ℕ) :
    0 ≤ fireCellNew rng k buf x y ∧ fireCellNew rng k buf x y ≤ 31 := by
  unfold fireCellNew
  by_cases h : 0 < (fireHeatStats buf x y).2
  · simp only [h, if_true]
    set nh2 :=
      if randint 0 10 (rng (k + 1)) < 3 then
        max 0 (max 0 (pyIntQ ((((fireHeatStats buf x y).1 : ℚ) / ((fireHeatStats buf x y).2 : ℚ)) -
          (randint 1 3 (rng k) : ℚ))) - randint 0 2 (rng (k + 2)))
      else max 0 (pyIntQ ((((fireHeatStats buf x y).1 : ℚ) / ((fireHeatStats buf x y).2 : ℚ)) -
          (randint 1 3 (rng k) : ℚ))) with hnh2
    have hnn : 0 ≤ nh2 := by
      rw [hnh2]
      split <;> exact le_max_left _ _
    exact ⟨le_min (by norm_num) hnn, min_le_left _ _⟩
  · simp [h]

lemma foldl_gridWrite_cases
    (g : (ℕ → ℕ → ℤ) → ℕ × ℕ × ℕ → ℕ → ℕ → ℤ)
    (hg : ∀ buf p y x, g buf p y x = buf y x ∨ (0 ≤ g buf p y x ∧ g buf p y x ≤ 31)) :
    ∀ (l : List (ℕ × ℕ × ℕ)) (buf : ℕ → ℕ → ℤ) (y x : ℕ),
      (l.foldl g buf) y x = buf y x ∨
        (0 ≤ (l.foldl g buf) y x ∧ (l.foldl g buf) y x ≤ 31) := by
  intro l
  induction l with
  | nil => intro buf y x; exact Or.inl rfl
  | cons a l ih =>
    intro buf y x
    have h1 := ih (g buf a) y x
    rcases h1 with h1 | h1
    · rw [List.foldl_cons, h1]
      exact hg buf a y x
    · exact Or.inr h1

lemma fireInteriorPass_cases (rng : ℕ → ℕ) (buf : ℕ → ℕ → ℤ) (y x : ℕ) :
    fireInteriorPass rng buf y x = buf y x ∨
      (0 ≤ fireInteriorPass rng buf y x ∧ fireInteriorPass rng buf y x ≤ 31) := by
  unfold fireInteriorPass
  apply foldl_gridWrite_cases
  intro b p y' x'
  unfold gridWrite
  by_cases h : y' = p.2.1 ∧ x' = p.2.2
  · simp only [h, and_self, if_true]
    exact Or.inr (fireCellNew_mem _ _ _ _ _)
  · rw [if_neg h]
    exact Or.inl rfl

lemma fireSourceRow_bottom (rng : ℕ → ℕ) (base : ℕ) (buf : ℕ → ℕ → ℤ) {x : ℕ}
    (hx : x < fireW) :
    20 ≤ fireSourceRow rng base buf (fireH - 1) x ∧
      fireSourceRow rng base buf (fireH - 1) x ≤ 31 := by
  unfold fireSourceRow
  simp only [hx, and_true, if_pos rfl]
  exact ⟨le_max_left _ _, max_le (by norm_num) (min_le_left _ _)⟩

lemma fireRun_mem (rng : ℕ → ℕ → ℕ) (n : ℕ) (y x : ℕ) :
    0 ≤ fireRun rng n y x ∧ fireRun rng n y x ≤ 31 := by
  induction n generalizing y x with
  | zero =>
    simp only [fireRun, fireInitBuffer, initFireSource]
    split <;> norm_num
  | succ n ih =>
    simp only [fireRun, fireStep, fireSourceRow]
    split
    · exact ⟨le_trans (by norm_num) (le_max_left _ _),
        max_le (by norm_num) (min_le_left _ _)⟩
    · rcases fireInteriorPass_cases (rng n) (fireRun rng n) y x with h | h
      · rw [h]; exact ih y x
      · exact h

lemma fireRun_bottom (rng : ℕ → ℕ → ℕ) (n : ℕ) {x : ℕ} (hx : x < fireW) :
    20 ≤ fireRun rng n (fireH - 1) x ∧ fireRun rng n (fireH - 1) x ≤ 31 := by
  cases n with
  | zero =>
    simp only [fireRun, fireInitBuffer, initFireSource, hx, and_true, if_pos rfl]
    norm_num
  | succ n =>
    simp only [fireRun, fireStep]
    exact fireSourceRow_bottom _ _ _ hx

/-! ## Escape-loop characterization -/

lemma escZ_succ (cr ci zx zy : ℚ) (n : ℕ) :
    escZ cr ci zx zy (n + 1) =
      ((escZ cr ci zx zy n).1 * (escZ cr ci zx zy n).1 -
          (escZ cr ci zx zy n).2 * (escZ cr ci zx zy n).2 + cr,
        2 * (escZ cr ci zx zy n).1 * (escZ cr ci zx zy n).2 + ci) := rfl

lemma escAux_eq_zero (cr ci zx zy : ℚ) :
    ∀ (fuel i : ℕ),
      (∀ j, i ≤ j → j < i + fuel → ¬ 4 < normSqQ (escZ cr ci zx zy j)) →
      escAux cr ci (escZ cr ci zx zy i).1 (escZ cr ci zx zy i).2 i fuel = 0 := by
  intro fuel
  induction fuel with
  | zero => intro i _; rfl
  | succ f ih =>
    intro i h
    have hi : ¬ 4 < normSqQ (escZ cr ci zx zy i) := h i le_rfl (by omega)
    rw [escAux, if_neg (by simpa [normSqQ] using hi)]
    have h2 := ih (i + 1) (fun j hj1 hj2 => h j (by omega) (by omega))
    rw [escZ_succ] at h2
    exact h2

lemma escAux_eq_found (cr ci zx zy : ℚ) :
    ∀ (fuel i j : ℕ), i ≤ j → j < i + fuel →
      4 < normSqQ (escZ cr ci zx zy j) →
      (∀ m, i ≤ m → m < j → ¬ 4 < normSqQ (escZ cr ci zx zy m)) →
      escAux cr ci (escZ cr ci zx zy i).1 (escZ cr ci zx zy i).2 i fuel = j := by
  intro fuel
  induction fuel with
  | zero => intro i j h1 h2; omega
  | succ f ih =>
    intro i j h1 h2 hj hmin
    by_cases hi : 4 < normSqQ (escZ cr ci zx zy i)
    · have hij : i = j := by
        by_contra hne
        exact hmin i le_rfl (by omega) hi
      rw [escAux, if_pos (by simpa [normSqQ] using hi)]
      exact hij
    · have hij : i < j := by
        rcases Nat.lt_or_ge i j with h | h
        · exact h
        · exfalso
          have hij' : i = j := le_antisymm h1 h
          rw [hij'] at hi
          exact hi hj
      rw [escAux, if_neg (by simpa [normSqQ] using hi)]
      have h2 := ih (i + 1) j (by omega) (by omega) hj
        (fun m hm1 hm2 => hmin m (by omega) hm2)
      rw [escZ_succ] at h2
      exact h2

lemma escZ_zero (cr ci zx zy : ℚ) : escZ cr ci zx zy 0 = (zx, zy) := rfl

lemma mandelbrotIteration_eq_zero_iff (cx cy : ℚ) (m : ℕ) :
    mandelbrotIteration cx cy m = 0 ↔
      ¬ ∃ k, k < m ∧ 4 < normSqQ (escZ cx cy 0 0 k) := by
  constructor
  · intro h0 ⟨k, hk, hesc⟩
    have hex : ∃ j, 4 < normSqQ (escZ cx cy 0 0 j) := ⟨k, hesc⟩
    set j := Nat.find hex with hj
    have hjesc : 4 < normSqQ (escZ cx cy 0 0 j) := Nat.find_spec hex
    have hjle : j ≤ k := Nat.find_min' hex hesc
    have hjmin : ∀ m', m' < j → ¬ 4 < normSqQ (escZ cx cy 0 0 m') :=
      fun m' hm' => Nat.find_min hex hm'
    have hj0 : j ≠ 0 := by
      intro hj0
      rw [hj0] at hjesc
      simp only [escZ_zero, normSqQ] at hjesc
      norm_num at hjesc
    have heq : escAux cx cy 0 0 0 m = j := by
      have h' := escAux_eq_found cx cy 0 0 m 0 j (Nat.zero_le _) (by omega) hjesc
        (fun m' _ hm' => hjmin m' hm')
      simpa [escZ_zero] using h'
    rw [mandelbrotIteration] at h0
    omega
  · intro h
    have := escAux_eq_zero cx cy 0 0 m 0
      (fun j _ hj hesc => h ⟨j, by omega, hesc⟩)
    rw [escZ_zero] at this
    exact this

lemma juliaIteration_eq_zero_iff (zoom cx cy cr ci : ℚ) (m x y : ℕ) :
    juliaIteration zoom cx cy cr ci m x y = 0 ↔
      (¬ ∃ k, k < m ∧
          4 < normSqQ (escZ cr ci (juliaZx zoom cx x) (juliaZy zoom cy y) k)) ∨
        4 < normSqQ (escZ cr ci (juliaZx zoom cx x) (juliaZy zoom cy y) 0) := by
  set zx := juliaZx zoom cx x with hzx
  set zy := juliaZy zoom cy y with hzy
  constructor
  · intro h0
    by_cases hesc0 : 4 < normSqQ (escZ cr ci zx zy 0)
    · exact Or.inr hesc0
    · left
      intro ⟨k, hk, hesc⟩
      have hex : ∃ j, 4 < normSqQ (escZ cr ci zx zy j) := ⟨k, hesc⟩
      set j := Nat.find hex with hj
      have hjesc : 4 < normSqQ (escZ cr ci zx zy j) := Nat.find_spec hex
      have hjle : j ≤ k := Nat.find_min' hex hesc
      have hjmin : ∀ m', m' < j → ¬ 4 < normSqQ (escZ cr ci zx zy m') :=
        fun m' hm' => Nat.find_min hex hm'
      have hj0 : j ≠ 0 := by
        intro hj0
        rw [hj0] at hjesc
        exact hesc0 hjesc
      have heq : escAux cr ci zx zy 0 m = j := by
        have h' := escAux_eq_found cr ci zx zy m 0 j (Nat.zero_le _) (by omega) hjesc
          (fun m' _ hm' => hjmin m' hm')
        simpa [escZ_zero] using h'
      rw [juliaIteration, ← hzx, ← hzy] at h0
      omega
  · intro h
    rcases h with h | h
    · have := escAux_eq_zero cr ci zx zy m 0
        (fun j _ hj hesc => h ⟨j, by omega, hesc⟩)
      rw [escZ_zero] at this
      exact this
    · cases m with
      | zero => rfl
      | succ f =>
        rw [juliaIteration, escAux, if_pos]
        simpa [escZ_zero, normSqQ] using h

/-! ## Index-range lemmas for the fractal color maps -/

lemma juliaColorIndex_pos {it : ℕ} (h : it ≠ 0) (off : ℝ) :
    1 ≤ juliaColorIndex it off ∧ juliaColorIndex it off ≤ 63 := by
  have hmn := fmod_nonneg ((it : ℝ) + off) (by norm_num : (0:ℝ) < 63)
  have hml := fmod_lt ((it : ℝ) + off) (by norm_num : (0:ℝ) < 63)
  have h1 : 0 ≤ pyInt (fmod ((it : ℝ) + off) 63) := pyInt_nonneg hmn
  have h2 : pyInt (fmod ((it : ℝ) + off) 63) < 63 :=
    pyInt_lt_of_lt hmn (by exact_mod_cast hml)
  simp only [juliaColorIndex, h, if_false]
  omega

lemma mandelColorIndex_pos {it : ℕ} (h : it ≠ 0) (off : ℝ) :
    1 ≤ mandelColorIndex it off ∧ mandelColorIndex it off ≤ 255 := by
  have hmn := fmod_nonneg ((it : ℝ) + off) (by norm_num : (0:ℝ) < 255)
  have hml := fmod_lt ((it : ℝ) + off) (by norm_num : (0:ℝ) < 255)
  have h1 : 0 ≤ pyInt (fmod ((it : ℝ) + off) 255) := pyInt_nonneg hmn
  have h2 : pyInt (fmod ((it : ℝ) + off) 255) < 255 :=
    pyInt_lt_of_lt hmn (by exact_mod_cast hml)
  simp only [mandelColorIndex, h, if_false]
  omega

lemma juliaColorIndex_mem (it : ℕ) (off : ℝ) :
    0 ≤ juliaColorIndex it off ∧ juliaColorIndex it off ≤ 63 := by
  by_cases h : it = 0
  · simp [juliaColorIndex, h]
  · have := juliaColorIndex_pos h off
    omega

lemma mandelColorIndex_mem (it : ℕ) (off : ℝ) :
    0 ≤ mandelColorIndex it off ∧ mandelColorIndex it off ≤ 255 := by
  by_cases h : it = 0
  · simp [mandelColorIndex, h]
  · have := mandelColorIndex_pos h off
    omega

lemma clampIdx_mem (k : ℤ) (e : ℤ) (hk : 0 ≤ k) :
    0 ≤ max 0 (min k e) ∧ max 0 (min k e) ≤ k :=
  ⟨le_max_left _ _, max_le hk (min_le_left _ _)⟩

/-! ## Claim theorems -/

/-- C1: for every effect generator, every pixel coordinate, every elapsed-time
  value and all values drawn from the injected random stream, the palette
  index written to the bitmap lies in [0, N-1] for that effect's palette size
  (64 for plasma, Julia and sine-wave; 32 for spiral, fire and streamers;
  16 for matrix and starfield; 256 for the framework plasma field,
  kaleidoscope and Mandelbrot), so the out-of-range branch of a bitmap write
  is never taken. -/
theorem generator_palette_index_in_range :
    (∀ (t : ℝ) (x y : ℕ), 0 ≤ plasmaColorIdx t x y ∧ plasmaColorIdx t x y ≤ 63) ∧
    (∀ (t rot : ℝ) (x y : ℕ),
        0 ≤ spiralColorIdx t rot x y ∧ spiralColorIdx t rot x y ≤ 31) ∧
    (∀ trail : ℕ, 0 ≤ matrixBrightness trail ∧ matrixBrightness trail ≤ 15) ∧
    (∀ (it : ℕ) (off : ℝ), 0 ≤ juliaColorIndex it off ∧ juliaColorIndex it off ≤ 63) ∧
    (∀ (rng : ℕ → ℕ → ℕ) (n y x : ℕ), 0 ≤ fireRun rng n y x ∧ fireRun rng n y x ≤ 31) ∧
    (∀ (b : ℤ) (z : ℝ), 0 ≤ starBrightnessIdx b z ∧ starBrightnessIdx b z ≤ 15) ∧
    (∀ (t shift : ℝ) (px py : ℕ) (sources : List WaveSource),
        0 ≤ sineColorIdx t shift px py sources ∧ sineColorIdx t shift px py sources ≤ 63) ∧
    (∀ r : ℕ, 0 ≤ streamerColor r ∧ streamerColor r ≤ 31) ∧
    (∀ (t shift : ℝ) (x y : ℕ),
        0 ≤ kaleidoscopeColorIdx t shift x y ∧ kaleidoscopeColorIdx t shift x y ≤ 255) ∧
    (∀ (t : ℝ) (x y : ℕ),
        0 ≤ plasmaFieldColorIdx t x y ∧ plasmaFieldColorIdx t x y ≤ 255) ∧
    (∀ (it : ℕ) (off : ℝ),
        0 ≤ mandelColorIndex it off ∧ mandelColorIndex it off ≤ 255) := by
  refine ⟨?_, ?_, ?_, ?_, ?_, ?_, ?_, ?_, ?_, ?_, ?_⟩
  · intro t x y
    have h1 := Int.emod_nonneg (pyInt ((plasmaVal t x y + 2.0) * 15.5))
      (by norm_num : (64:ℤ) ≠ 0)
    have h2 := Int.emod_lt_of_pos (pyInt ((plasmaVal t x y + 2.0) * 15.5))
      (by norm_num : (0:ℤ) < 64)
    exact ⟨h1, by simp only [plasmaColorIdx]; omega⟩
  · intro t rot x y
    have h1 := Int.emod_nonneg (pyInt ((spiralCombined t rot x y + 1.0) * 15.5))
      (by norm_num : (32:ℤ) ≠ 0)
    have h2 := Int.emod_lt_of_pos (pyInt ((spiralCombined t rot x y + 1.0) * 15.5))
      (by norm_num : (0:ℤ) < 32)
    exact ⟨h1, by simp only [spiralColorIdx]; omega⟩
  · intro trail
    unfold matrixBrightness
    split
    · norm_num
    · have h : (0:ℤ) ≤ (trail : ℤ) := Int.natCast_nonneg _
      exact ⟨le_max_left _ _, max_le (by norm_num) (by omega)⟩
  · exact juliaColorIndex_mem
  · exact fun rng n y x => fireRun_mem rng n y x
  · intro b z
    unfold starBrightnessIdx
    exact ⟨le_trans zero_le_one (le_max_left _ _),
      max_le (by norm_num) (min_le_left _ _)⟩
  · intro t shift px py sources
    exact clampIdx_mem 63 _ (by norm_num)
  · intro r
    have := randint_mem (by norm_num : (1:ℤ) ≤ 31) r
    unfold streamerColor
    omega
  · intro t shift x y
    exact clampIdx_mem 255 _ (by norm_num)
  · intro t x y
    exact clampIdx_mem 255 _ (by norm_num)
  · exact mandelColorIndex_mem

/-- C2 counterexample: with the all-zeros random stream, one MatrixEffect.update
  moves every drop from -10 to -9.7, and reset() only zeroes the time counter,
  so the state after update-then-reset is not the construction state. -/
theorem matrix_reset_counterexample :
    matrixResetState (matrixUpdateState (fun _ => 0) (matrixInitState fun _ => 0)) ≠
      matrixInitState (fun _ => 0) := by
  intro h
  have h1 := congrFun (congrArg MatrixState.dropPositions h) 0
  norm_num [matrixResetState, matrixUpdateState, matrixInitState, matrixColUpdate,
    randint, pyChoice, matrixRows, List.getD] at h1

/-- C2 amended: reset() re-zeros the time (and color-offset) counters and reuses
  the palette unmodified, and for the fire effect re-seeds only the bottom source
  row; but it does not restore the construction state: MatrixEffect's drop
  columns are left untouched, FireEffect's interior heat cells keep their
  current values, and Julia's animated parameters c_real, c_imag, zoom keep
  their current values.  PlasmaEffect (whose state is only the time counter) is
  fully restored. -/
theorem reset_behavior_amended :
    (∀ s : MatrixState, (matrixResetState s).time = 0 ∧
        (matrixResetState s).dropPositions = s.dropPositions ∧
        (matrixResetState s).dropSpeeds = s.dropSpeeds ∧
        (matrixResetState s).dropActive = s.dropActive ∧
        (matrixResetState s).palette = s.palette) ∧
    (∀ s : FireState, (fireResetState s).time = 0 ∧
        (∀ x, x < fireW → (fireResetState s).buffer (fireH - 1) x = 31) ∧
        (∀ y x, y ≠ fireH - 1 → (fireResetState s).buffer y x = s.buffer y x) ∧
        (fireResetState s).palette = s.palette) ∧
    (∀ s : PlasmaState, plasmaResetState s = plasmaInitState) ∧
    (∀ s : JuliaState, (juliaResetState s).time = 0 ∧
        (juliaResetState s).colorOffset = 0 ∧
        (juliaResetState s).cReal = s.cReal ∧ (juliaResetState s).cImag = s.cImag ∧
        (juliaResetState s).zoom = s.zoom) := by
  refine ⟨fun s => ⟨rfl, rfl, rfl, rfl, rfl⟩, fun s => ⟨rfl, ?_, ?_, rfl⟩,
    fun s => rfl, fun s => ⟨rfl, rfl, rfl, rfl, rfl⟩⟩
  · intro x hx
    simp [fireResetState, initFireSource, hx]
  · intro y x hy
    simp [fireResetState, initFireSource, hy]

/-- Witness for the amended reset claim at concrete states. -/
theorem reset_behavior_amended_check :
    (0 < fireW) ∧
    (fireResetState ⟨5, fireInitBuffer, firePaletteEntry⟩).buffer (fireH - 1) 0 = 31 ∧
    (matrixResetState (matrixInitState fun _ => 0)).time = 0 :=
  ⟨by decide,
    (reset_behavior_amended.2.1 ⟨5, fireInitBuffer, firePaletteEntry⟩).2.1 0 (by decide),
    (reset_behavior_amended.1 (matrixInitState fun _ => 0)).1⟩

/-- C7: across any number of ticks and any random-stream values, every bottom
  source-row cell of the fire heat grid holds at least 20 and at most 31, and
  every cell of the whole grid holds a value in [0, 31], never exceeding the
  palette's maximum index. -/
theorem fire_heat_invariant :
    ∀ (rng : ℕ → ℕ → ℕ) (n : ℕ),
      (∀ x, x < fireW →
          20 ≤ fireRun rng n (fireH - 1) x ∧ fireRun rng n (fireH - 1) x ≤ 31) ∧
      (∀ y x, 0 ≤ fireRun rng n y x ∧ fireRun rng n y x ≤ 31) :=
  fun rng n =>
    ⟨fun _ hx => fireRun_bottom rng n hx, fun y x => fireRun_mem rng n y x⟩

/-- Witness for the fire invariant at a concrete stream, tick count and cell. -/
theorem fire_heat_invariant_check :
    (0 < fireW) ∧
    (20 ≤ fireRun (fun _ _ => 0) 1 (fireH - 1) 0 ∧
      fireRun (fun _ _ => 0) 1 (fireH - 1) 0 ≤ 31) :=
  ⟨by decide, (fire_heat_invariant (fun _ _ => 0) 1).1 0 (by decide)⟩

/-- C3 counterexample: at the constructor parameters of JuliaFractalEffect
  (zoom 1.5, center (-0.7, 0), c = (-0.4, 0.6), max_iterations 20) the pixel
  (0, 0) maps to z0 = (-61/30, -4/3) with |z0|^2 > 4, so the point escapes at
  iteration 0; yet the iteration function returns 0 and the pixel is written
  with palette index 0, the index the claim reserves for non-escaping points. -/
theorem julia_zero_index_counterexample :
    juliaIteration (3/2) (-7/10) 0 (-2/5) (3/5) 20 0 0 = 0 ∧
    (0 : ℕ) < 20 ∧
    4 < normSqQ (escZ (-2/5) (3/5) (juliaZx (3/2) (-7/10) 0) (juliaZy (3/2) 0 0) 0) ∧
    juliaColorIndex (juliaIteration (3/2) (-7/10) 0 (-2/5) (3/5) 20 0 0) (0 : ℝ) = 0 := by
  have hzx : juliaZx (3/2) (-7/10) 0 = -61/30 := by norm_num [juliaZx]
  have hzy : juliaZy (3/2) 0 0 = -4/3 := by norm_num [juliaZy]
  have hesc : 4 < normSqQ (escZ (-2/5) (3/5) (-61/30) (-4/3) 0) := by
    rw [escZ_zero]
    norm_num [normSqQ]
  have hiter : juliaIteration (3/2) (-7/10) 0 (-2/5) (3/5) 20 0 0 = 0 := by
    rw [juliaIteration, hzx, hzy]
    have h' := escAux_eq_found (-2/5) (3/5) (-61/30) (-4/3) 20 0 0 le_rfl (by norm_num)
      hesc (fun m _ hm => absurd hm (Nat.not_lt_zero m))
    simpa [escZ_zero] using h'
  refine ⟨hiter, by norm_num, by rw [hzx, hzy]; exact hesc, ?_⟩
  rw [hiter]
  simp [juliaColorIndex]

/-- C3 amended: for Mandelbrot (z0 = 0) the index-0-iff-no-escape claim holds
  as stated; for Julia the iteration also returns 0 when the pixel's z0 already
  satisfies |z0|^2 > 4 (escape at iteration 0), so index 0 marks no-escape OR
  escape-at-0.  Every pixel with a nonzero escape count is written with
  ((count + color_offset) mod (N-1)) + 1, which lies in [1, N-1] and is never 0,
  and the returned count is the first escaping iteration. -/
theorem fractal_zero_index_amended :
    (∀ (cx cy : ℚ) (m : ℕ),
        mandelbrotIteration cx cy m = 0 ↔
          ¬ ∃ k, k < m ∧ 4 < normSqQ (escZ cx cy 0 0 k)) ∧
    (∀ (zoom cx cy cr ci : ℚ) (m x y : ℕ),
        juliaIteration zoom cx cy cr ci m x y = 0 ↔
          (¬ ∃ k, k < m ∧
              4 < normSqQ (escZ cr ci (juliaZx zoom cx x) (juliaZy zoom cy y) k)) ∨
            4 < normSqQ (escZ cr ci (juliaZx zoom cx x) (juliaZy zoom cy y) 0)) ∧
    (∀ (it : ℕ) (off : ℝ), it ≠ 0 →
        (1 ≤ juliaColorIndex it off ∧ juliaColorIndex it off ≤ 63) ∧
        (1 ≤ mandelColorIndex it off ∧ mandelColorIndex it off ≤ 255)) ∧
    (∀ (it : ℕ) (off : ℝ), it ≠ 0 →
        juliaColorIndex it off = pyInt (fmod ((it : ℝ) + off) 63) + 1 ∧
        mandelColorIndex it off = pyInt (fmod ((it : ℝ) + off) 255) + 1) ∧
    (∀ (cx cy : ℚ) (m j : ℕ), j < m → 4 < normSqQ (escZ cx cy 0 0 j) →
        (∀ k, k < j → ¬ 4 < normSqQ (escZ cx cy 0 0 k)) →
        mandelbrotIteration cx cy m = j) := by
  refine ⟨mandelbrotIteration_eq_zero_iff, juliaIteration_eq_zero_iff, ?_, ?_, ?_⟩
  · intro it off h
    exact ⟨juliaColorIndex_pos h off, mandelColorIndex_pos h off⟩
  · intro it off h
    simp [juliaColorIndex, mandelColorIndex, h]
  · intro cx cy m j h1 h2 h3
    have h' := escAux_eq_found cx cy 0 0 m 0 j (Nat.zero_le _) (by omega) h2
      (fun k _ hk => h3 k hk)
    rw [mandelbrotIteration]
    simpa [escZ_zero] using h'

/-- Witness for the amended fractal-index claim at concrete inputs. -/
theorem fractal_zero_index_amended_check :
    (mandelbrotIteration 0 0 5 = 0 ↔ ¬ ∃ k, k < 5 ∧ 4 < normSqQ (escZ 0 0 0 0 k)) ∧
    (1 ≤ juliaColorIndex 1 0 ∧ juliaColorIndex 1 0 ≤ 63) ∧
    mandelbrotIteration 2 2 3 = 1 :=
  ⟨fractal_zero_index_amended.1 0 0 5,
    (fractal_zero_index_amended.2.2.1 1 0 (by decide)).1,
    fractal_zero_index_amended.2.2.2.2 2 2 3 1 (by decide)
      (by rw [escZ_succ, escZ_zero]; norm_num [normSqQ])
      (by
        intro k hk
        interval_cases k
        rw [escZ_zero]
        norm_num [normSqQ])⟩

lemma mandelZ_zero_zero (k : ℕ) : escZ 0 0 0 0 k = (0, 0) := by
  induction k with
  | zero => rfl
  | succ n ih =>
    rw [escZ_succ, ih]
    norm_num

/-- C6: the Mandelbrot iteration at c = (0,0) returns the non-escape result 0
  for every positive max_iterations (the orbit stays at 0, so it never
  escapes), and at c = (2,2) it returns a value in {0, 1}: the point escapes at
  iteration 1 (|z_1|^2 = 8 > 4), the function returns exactly 1 whenever
  max_iterations ≥ 2, and returns 0 when max_iterations = 1 because the loop
  checks the escape condition only before each of its max_iterations steps. -/
theorem mandelbrot_escape_examples :
    ∀ m : ℕ, 0 < m →
      mandelbrotIteration 0 0 m = 0 ∧
      (∀ k, ¬ 4 < normSqQ (escZ 0 0 0 0 k)) ∧
      mandelbrotIteration 2 2 m ≤ 1 ∧
      4 < normSqQ (escZ 2 2 0 0 1) ∧
      (2 ≤ m → mandelbrotIteration 2 2 m = 1) := by
  intro m hm
  have hz00 : ∀ k, ¬ 4 < normSqQ (escZ 0 0 0 0 k) := by
    intro k
    rw [mandelZ_zero_zero]
    norm_num [normSqQ]
  have h00 : mandelbrotIteration 0 0 m = 0 :=
    (mandelbrotIteration_eq_zero_iff 0 0 m).mpr (fun ⟨k, _, hk⟩ => hz00 k hk)
  have hesc1 : 4 < normSqQ (escZ 2 2 0 0 1) := by
    rw [escZ_succ, escZ_zero]
    norm_num [normSqQ]
  have hmin1 : ∀ k, k < 1 → ¬ 4 < normSqQ (escZ 2 2 0 0 k) := by
    intro k hk
    interval_cases k
    rw [escZ_zero]
    norm_num [normSqQ]
  have h2 : 2 ≤ m → mandelbrotIteration 2 2 m = 1 := by
    intro h2m
    have h' := escAux_eq_found 2 2 0 0 m 0 1 (Nat.zero_le _) (by omega) hesc1
      (fun k _ hk => hmin1 k hk)
    rw [mandelbrotIteration]
    simpa [escZ_zero] using h'
  have hle : mandelbrotIteration 2 2 m ≤ 1 := by
    rcases Nat.lt_or_ge m 2 with h | h
    · have hm1 : m = 1 := by omega
      subst hm1
      have h0 := escAux_eq_zero 2 2 0 0 1 0 (fun j hj1 hj2 => by
        have hj0 : j = 0 := by omega
        subst hj0
        rw [escZ_zero]
        norm_num [normSqQ])
      rw [mandelbrotIteration]
      simp only [escZ_zero] at h0
      omega
    · rw [h2 h]
  exact ⟨h00, hz00, hle, hesc1, h2⟩

/-- Witness for the Mandelbrot escape examples at max_iterations = 3. -/
theorem mandelbrot_escape_examples_check :
    0 < 3 ∧ mandelbrotIteration 0 0 3 = 0 ∧ mandelbrotIteration 2 2 3 = 1 :=
  ⟨by decide, (mandelbrot_escape_examples 3 (by decide)).1,
    (mandelbrot_escape_examples 3 (by decide)).2.2.2.2 (by decide)⟩

/-- C4: with auto_advance_seconds = 10 and no touch input, the manager advances
  the active index exactly at the ticks where at least 10 seconds have elapsed
  since the last transition: such a tick sets the index to (index+1) mod 9 and
  stamps the transition time, advancing from the last effect (index 8) wraps to
  index 0, a tick with less than 10 elapsed seconds changes nothing, and along
  any tick sequence the final index is the initial index plus the number of
  qualifying ticks, mod 9. -/
theorem auto_advance_schedule :
    (∀ (s : AutoState) (now : ℚ), 10 ≤ now - s.lastScroll →
        autoTick now s = ⟨(s.idx + 1) % numEffects, now⟩) ∧
    (∀ (s : AutoState) (now : ℚ), now - s.lastScroll < 10 → autoTick now s = s) ∧
    (∀ (s : AutoState) (now : ℚ), s.idx = numEffects - 1 → 10 ≤ now - s.lastScroll →
        (autoTick now s).idx = 0) ∧
    (∀ (ts : List ℚ) (s : AutoState), s.idx < numEffects →
        (autoRun ts s).idx = (s.idx + autoCount ts s.lastScroll) % numEffects) := by
  have h1 : ∀ (s : AutoState) (now : ℚ), 10 ≤ now - s.lastScroll →
      autoTick now s = ⟨(s.idx + 1) % numEffects, now⟩ := by
    intro s now h
    simp [autoTick, h]
  have h2 : ∀ (s : AutoState) (now : ℚ), now - s.lastScroll < 10 → autoTick now s = s := by
    intro s now h
    simp [autoTick, not_le.mpr h]
  refine ⟨h1, h2, ?_, ?_⟩
  · intro s now hidx h
    rw [h1 s now h]
    simp [hidx, numEffects]
  · intro ts
    induction ts with
    | nil =>
      intro s hs
      simp only [autoRun, List.foldl_nil, autoCount]
      simp only [numEffects] at hs ⊢
      omega
    | cons t ts ih =>
      intro s hs
      by_cases h : 10 ≤ t - s.lastScroll
      · have hstep : autoRun (t :: ts) s = autoRun ts (autoTick t s) := rfl
        rw [hstep, h1 s t h, ih ⟨(s.idx + 1) % numEffects, t⟩
          (Nat.mod_lt _ (by norm_num [numEffects]))]
        simp only [autoCount, if_pos h]
        rw [Nat.mod_add_mod]
        congr 1
        omega
      · have hstep : autoRun (t :: ts) s = autoRun ts s := by
          show autoRun ts (autoTick t s) = autoRun ts s
          rw [h2 s t (not_le.mp h)]
        rw [hstep, ih s hs]
        simp only [autoCount, if_neg h]

/-- Witness for the auto-advance claim: a tick exactly 10 s after the last
  transition, from the last effect, wraps the index to 0. -/
theorem auto_advance_schedule_check :
    (10 ≤ (10 : ℚ) - 0) ∧ autoTick 10 ⟨8, 0⟩ = ⟨(8 + 1) % numEffects, 10⟩ :=
  ⟨by norm_num, auto_advance_schedule.1 ⟨8, 0⟩ 10 (by norm_num)⟩

/-- C5: two touch rising edges less than the 0.5 s debounce window apart cause
  exactly one transition: the first advances the index by one (mod 3) and
  records its time, the second leaves the scheduler state completely
  unchanged. -/
theorem touch_debounce_single_transition :
    ∀ (s : TouchState) (t1 t2 : ℚ),
      (0.5 : ℚ) < t1 - s.lastTouch → t2 - t1 < 0.5 →
      (fwHandleTouch t1 true s).idx = (s.idx + 1) % fwCount ∧
      fwHandleTouch t2 true (fwHandleTouch t1 true s) = fwHandleTouch t1 true s := by
  intro s t1 t2 h1 h2
  have hs1 : fwHandleTouch t1 true s =
      { idx := (s.idx + 1) % fwCount, lastTouch := t1, lastAdvance := t1 } := by
    simp [fwHandleTouch, fwAdvanceEffect, h1]
  refine ⟨by rw [hs1], ?_⟩
  rw [hs1]
  have hno : ¬ ((0.5 : ℚ) < t2 - t1) := by linarith
  simp [fwHandleTouch, hno]

/-- Witness for the debounce claim at concrete edge times 1 and 1.25. -/
theorem touch_debounce_single_transition_check :
    ((0.5 : ℚ) < 1 - 0) ∧ ((5 / 4 : ℚ) - 1 < 0.5) ∧
    (fwHandleTouch 1 true ⟨0, 0, 0⟩).idx = (0 + 1) % fwCount :=
  ⟨by norm_num, by norm_num,
    (touch_debounce_single_transition ⟨0, 0, 0⟩ 1 (5 / 4) (by norm_num) (by norm_num)).1⟩

/-- C10: touch handling is level-sampled, not edge-detected: any update tick
  whose touch sample reads true with strictly more than the 0.5 s debounce
  elapsed since the last accepted touch performs a transition, with no
  intervening false sample required, so a continuously-held touch produces a
  new transition each time the debounce interval elapses. -/
theorem touch_level_sampled :
    ∀ (s : TouchState) (t1 t2 : ℚ),
      (0.5 : ℚ) < t1 - s.lastTouch →
      fwHandleTouch t1 true s =
        { idx := (s.idx + 1) % fwCount, lastTouch := t1, lastAdvance := t1 } ∧
      ((0.5 : ℚ) < t2 - t1 →
        (fwHandleTouch t2 true (fwHandleTouch t1 true s)).idx = (s.idx + 2) % fwCount) := by
  intro s t1 t2 h1
  have hs1 : fwHandleTouch t1 true s =
      { idx := (s.idx + 1) % fwCount, lastTouch := t1, lastAdvance := t1 } := by
    simp [fwHandleTouch, fwAdvanceEffect, h1]
  refine ⟨hs1, ?_⟩
  intro h2
  rw [hs1]
  have hs2 : fwHandleTouch t2 true
      ({ idx := (s.idx + 1) % fwCount, lastTouch := t1, lastAdvance := t1 } : TouchState) =
      { idx := ((s.idx + 1) % fwCount + 1) % fwCount, lastTouch := t2, lastAdvance := t2 } := by
    simp [fwHandleTouch, fwAdvanceEffect, h2]
  rw [hs2]
  show ((s.idx + 1) % fwCount + 1) % fwCount = (s.idx + 2) % fwCount
  simp only [fwCount]
  omega

/-- Witness for the level-sampled touch claim at a concrete held-touch tick. -/
theorem touch_level_sampled_check :
    ((0.5 : ℚ) < 1 - 0) ∧
    fwHandleTouch 1 true ⟨0, 0, 0⟩ = ⟨(0 + 1) % fwCount, 1, 1⟩ :=
  ⟨by norm_num, (touch_level_sampled ⟨0, 0, 0⟩ 1 2 (by norm_num)).1⟩

lemma pyIntQ_of_nonneg {q : ℚ} (h : 0 ≤ q) : pyIntQ q = ⌊q⌋ := by
  simp [pyIntQ, h]

lemma pyIntQ_nonneg {q : ℚ} (h : 0 ≤ q) : 0 ≤ pyIntQ q := by
  rw [pyIntQ_of_nonneg h]
  exact Int.floor_nonneg.mpr h

lemma pyIntQ_le_of_le {q : ℚ} {n : ℤ} (h0 : 0 ≤ q) (h : q ≤ (n : ℚ)) : pyIntQ q ≤ n := by
  rw [pyIntQ_of_nonneg h0]
  exact (Int.floor_le_floor h).trans_eq (Int.floor_intCast n)

/-- C8: every channel of every entry of every palette-construction function is
  in [0, 255], and the entry at index 0 of every fractal (Julia, Mandelbrot),
  heat (fire) and star palette is pure black. -/
theorem palette_channels_and_background :
    (∀ i, i < 64 → rgbOk (plasmaPaletteEntry i)) ∧
    (∀ i, i < 32 → rgbOk (spiralPaletteEntry i)) ∧
    (∀ i, i < 16 → rgbOk (matrixPaletteEntry i)) ∧
    (∀ i, i < 64 → rgbOk (juliaPaletteEntry i)) ∧
    (∀ i, i < 32 → rgbOk (firePaletteEntry i)) ∧
    (∀ i, i < 16 → rgbOk (starPaletteEntry i)) ∧
    (∀ i, i < 64 → rgbOk (sinePaletteEntry i)) ∧
    (∀ i, i < 32 → rgbOk (streamersPaletteEntry i)) ∧
    (∀ i, i < 256 → rgbOk (kaleidoscopePaletteEntry i)) ∧
    (∀ i, i < 256 → rgbOk (mandelbrotPaletteEntry i)) ∧
    (∀ i, i < 256 → rgbOk (plasmaFieldPaletteEntry i)) ∧
    juliaPaletteEntry 0 = (0, 0, 0) ∧ mandelbrotPaletteEntry 0 = (0, 0, 0) ∧
    firePaletteEntry 0 = (0, 0, 0) ∧ starPaletteEntry 0 = (0, 0, 0) := by
  refine ⟨?_, ?_, ?_, ?_, ?_, ?_, ?_, ?_, ?_, ?_, ?_, ?_, ?_, ?_, ?_⟩
  · intro i _
    simp only [plasmaPaletteEntry, rgbOk]
    exact ⟨(sin_channel_mem _).1, (sin_channel_mem _).2, (sin_channel_mem _).1,
      (sin_channel_mem _).2, (sin_channel_mem _).1, (sin_channel_mem _).2⟩
  · intro i _
    simp only [spiralPaletteEntry]
    exact rgbOk_clamp _ _ _
  · intro i hi
    have hc : (i : ℚ) ≤ 15 := by exact_mod_cast (by omega : i ≤ 15)
    have h0 : (0 : ℚ) ≤ (i : ℚ) / 15 := by positivity
    have hle : (i : ℚ) / 15 ≤ 1 := by
      rw [div_le_one (by norm_num)]
      exact hc
    simp only [matrixPaletteEntry, rgbOk]
    refine ⟨le_refl 0, by norm_num, pyIntQ_nonneg (by positivity),
      pyIntQ_le_of_le (by positivity) (by push_cast; nlinarith),
      pyIntQ_nonneg (by positivity),
      pyIntQ_le_of_le (by positivity) (by push_cast; nlinarith)⟩
  · intro i _
    by_cases h0 : i = 0
    · simp [h0, juliaPaletteEntry, rgbOk]
    · simp only [juliaPaletteEntry, if_neg h0]
      exact rgbOk_clamp _ _ _
  · intro i _
    simp only [firePaletteEntry]
    split_ifs <;> exact rgbOk_clamp _ _ _
  · intro i _
    have h0 : (0 : ℚ) ≤ (i : ℚ) / 15 := by positivity
    simp only [starPaletteEntry]
    split_ifs with hz h3 h7
    · simp [rgbOk]
    · exact ⟨pyIntQ_nonneg (by positivity),
        pyIntQ_le_of_le (by positivity) (by push_cast; nlinarith),
        pyIntQ_nonneg (by positivity),
        pyIntQ_le_of_le (by positivity) (by push_cast; nlinarith),
        pyIntQ_nonneg (by positivity),
        pyIntQ_le_of_le (by positivity) (by push_cast; nlinarith)⟩
    · exact ⟨pyIntQ_nonneg (by positivity),
        pyIntQ_le_of_le (by positivity) (by push_cast; nlinarith),
        pyIntQ_nonneg (by positivity),
        pyIntQ_le_of_le (by positivity) (by push_cast; nlinarith),
        pyIntQ_nonneg (by positivity),
        pyIntQ_le_of_le (by positivity) (by push_cast; nlinarith)⟩
    · simp [rgbOk]
  · intro i _
    simp only [sinePaletteEntry]
    split_ifs <;> exact rgbOk_clamp _ _ _
  · intro i _
    by_cases h0 : i = 0
    · simp [h0, streamersPaletteEntry, rgbOk]
    · simp only [streamersPaletteEntry, if_neg h0]
      exact rgbOk_clamp _ _ _
  · intro i _
    simp only [kaleidoscopePaletteEntry]
    exact rgbOk_clamp _ _ _
  · intro i _
    by_cases h0 : i = 0
    · simp [h0, mandelbrotPaletteEntry, rgbOk]
    · simp only [mandelbrotPaletteEntry, if_neg h0]
      exact rgbOk_clamp _ _ _
  · intro i _
    simp only [plasmaFieldPaletteEntry]
    exact rgbOk_clamp _ _ _
  · simp [juliaPaletteEntry]
  · simp [mandelbrotPaletteEntry]
  · norm_num [firePaletteEntry, clamp255, pyIntQ]
  · simp [starPaletteEntry]

/-- Witness for the palette claim at concrete indices. -/
theorem palette_channels_and_background_check :
    rgbOk (plasmaPaletteEntry 1) ∧ rgbOk (firePaletteEntry 5) ∧
      rgbOk (matrixPaletteEntry 3) :=
  ⟨palette_channels_and_background.1 1 (by norm_num),
    palette_channels_and_background.2.2.2.2.1 5 (by norm_num),
    palette_channels_and_background.2.2.1 3 (by norm_num)⟩

/-- C9 counterexample: at index 255 of the 256-color PlasmaField rainbow
  palette, the code computes angle (255/255)·2π = 2π, so the red channel is
  int(127 + 127·sin(2π)) = 127; the spec formula uses angle (255/256)·2π and
  round(), giving round(127 - 127·sin(π/128)) = 124.  The palette entry
  therefore differs from the spec's formula. -/
theorem rainbow_palette_formula_counterexample :
    plasmaFieldPaletteEntry 255 ≠ rainbowSpecEntry 256 255 := by
  have hcode : (plasmaFieldPaletteEntry 255).1 = 127 := by
    show clamp255 (pyInt (127 + 127 *
      Real.sin ((((255 : ℕ) : ℝ) / 255.0) * 2 * Real.pi))) = 127
    have hang : (((255 : ℕ) : ℝ) / 255.0) * 2 * Real.pi = 2 * Real.pi := by
      norm_num
    rw [hang, Real.sin_two_pi]
    have h127 : (127 : ℝ) + 127 * 0 = ((127 : ℤ) : ℝ) := by norm_num
    rw [h127, pyInt_of_nonneg (by norm_num), Int.floor_intCast]
    decide
  have hspec : (rainbowSpecEntry 256 255).1 = 124 := by
    show clamp255 (round (127 + 127 *
      Real.sin ((((255 : ℕ) : ℝ) / ((256 : ℕ) : ℝ)) * (2 * Real.pi)))) = 124
    have hang : (((255 : ℕ) : ℝ) / ((256 : ℕ) : ℝ)) * (2 * Real.pi) =
        -(Real.pi / 128) + 2 * Real.pi := by
      push_cast
      ring
    rw [hang, Real.sin_add_two_pi, Real.sin_neg]
    set s := Real.sin (Real.pi / 128) with hs
    have hπu : Real.pi < 3.141593 := Real.pi_lt_d6
    have hπl : 3.141592 < Real.pi := Real.pi_gt_d6
    have hxpos : 0 < Real.pi / 128 := by positivity
    have hxle : Real.pi / 128 ≤ 1 := by nlinarith
    have hsu : s < Real.pi / 128 := Real.sin_lt hxpos
    have hsl : Real.pi / 128 - (Real.pi / 128) ^ 3 / 4 < s :=
      Real.sin_gt_sub_cube hxpos hxle
    have hxu : Real.pi / 128 < 0.0245441 := by nlinarith
    have hx3 : (Real.pi / 128) ^ 3 < 0.0000148 := by
      have h := pow_lt_pow_left₀ hxu hxpos.le (three_ne_zero)
      calc (Real.pi / 128) ^ 3 < 0.0245441 ^ 3 := h
      _ < 0.0000148 := by norm_num
    have hs_ub : s < 0.0245441 := hsu.trans hxu
    have hs_lb : (0.0245 : ℝ) < s := by nlinarith
    have hround : round ((127 : ℝ) + 127 * -s) = 124 := by
      rw [round_eq, Int.floor_eq_iff]
      constructor
      · push_cast
        nlinarith
      · push_cast
        nlinarith
    rw [hround]
    decide
  intro h
  have h1 := congrArg Prod.fst h
  rw [hcode, hspec] at h1
  norm_num at h1

/-- C9 amended: the two rainbow palettes (64-color PlasmaEffect, 256-color
  PlasmaField) use channel angle (i/(N-1))·2π — not (i/N)·2π — with the literal
  phase shifts 2.094 and 4.188 (approximations of 2π/3 and 4π/3), and each
  channel is int-truncated 127 + 127·sin(angle), with the [0, 255] clamp
  applied only in the PlasmaField version. -/
theorem rainbow_palette_formula_amended :
    (∀ i, plasmaPaletteEntry i = rainbowCodeEntry 64 i) ∧
    (∀ i, plasmaFieldPaletteEntry i = rainbowCodeEntryClamped 256 i) := by
  constructor
  · intro i
    simp only [plasmaPaletteEntry, rainbowCodeEntry]
    norm_num
  · intro i
    simp only [plasmaFieldPaletteEntry, rainbowCodeEntryClamped]
    norm_num

end PyPortal
